import Mathlib

/-!
Shallow embedding of `src/config.py` (mergekit configuration schema and
parameter resolution engine): the setting evaluator `evaluate_setting`, the
cascading resolver `ConfigReader.parameter`, and the schema collaborators
`MergeConfiguration.referenced_models` / `MergeConfiguration.validate`.

Python floats are modelled as rationals (`ℚ`), Python `int(x)` as truncation
toward zero, Python lists as `List`, dicts as association lists with
first-match lookup, `None` as `Option.none`, and raised exceptions as the
`Except` error component (`PyErr`).
-/

namespace MergekitConfig

/-- Modelled from the spec: `ModelReference` lives in module `common`, which is
not part of the sources; per the spec it is used only as an abstract
equality/string key, not reinterpreted by the core, so we model it as a
wrapper around its identity string with `parse`/`str` the two directions. -/
structure ModelReference where
  path : String
deriving DecidableEq, Repr

/-- Modelled from the spec: `ModelReference.parse` of `common`, an abstract
parser used as a string key. -/
def ModelReference.parse (s : String) : ModelReference := ⟨s⟩

/-- Python `str(model)`. -/
def ModelReference.ident (m : ModelReference) : String := m.path

/-- The Python exceptions that the embedded code can raise. -/
inductive PyErr where
  | attributeError (attr : String)
  | indexError
  | typeError (msg : String)
  | runtimeError (msg : String)
deriving DecidableEq, Repr

/-- Runtime shape of a `ParameterSetting` value: a Python scalar
(float/int are `num`, bool and str kept apart because `evaluate_setting`
type-sniffs them), a `ConditionalParameter` object (fields `value`, `filter`),
or a Python list. -/
inductive Setting where
  | num (q : ℚ)
  | bool (b : Bool)
  | str (s : String)
  | cond (value : Setting) (filter : Option String)
  | list (l : List Setting)

/-- `isinstance(e, (int, float))` — Python `bool` is a subtype of `int`. -/
def isNumeric : Setting → Bool
  | .num _ => true
  | .bool _ => true
  | _ => false

/-- `isinstance(e, (float, int, bool, str))`. -/
def isScalar : Setting → Bool
  | .num _ => true
  | .bool _ => true
  | .str _ => true
  | _ => false

/-- Numeric value used by Python arithmetic on gradient elements
(`True`/`False` act as `1`/`0`); other cases are unreachable in the
all-numeric branch. -/
def numVal : Setting → ℚ
  | .num q => q
  | .bool b => if b then 1 else 0
  | _ => 0

/-- Python `int(x)` on a float: truncation toward zero. -/
def pytrunc (q : ℚ) : ℤ := if 0 ≤ q then ⌊q⌋ else ⌈q⌉

/-- Python list indexing `xs[i]`: negative indices count from the end,
out-of-range raises `IndexError`. -/
def pyIndex (xs : List Setting) (i : ℤ) : Except PyErr Setting :=
  let j : ℤ := if i < 0 then i + xs.length else i
  if h : 0 ≤ j ∧ j < xs.length then
    .ok (xs.get ⟨j.toNat, by omega⟩)
  else
    .error .indexError

/-- Python substring test `pat in s`. -/
def strIn (pat s : String) : Bool :=
  (List.range (s.data.length + 1)).any (fun i => pat.data.isPrefixOf (s.data.drop i))

/-- The filter test of the conditional branch:
`cond.filter is None or cond.filter == "*" or cond.filter in tensor_name`. -/
def filterMatches (f : Option String) (tensor_name : String) : Bool :=
  match f with
  | none => true
  | some fs => fs == "*" || strIn fs tensor_name

mutual

/-- `evaluate_setting(tensor_name, setting, t)` of `src/config.py`.
Returns `.ok v` for a normal return (`.ok none` is Python `None`) and
`.error e` for a raised exception. -/
def evaluate_setting (tensor_name : String) (setting : Setting) (t : ℚ) :
    Except PyErr (Option Setting) :=
  match setting with
  | .num q => .ok (some (.num q))
  | .bool b => .ok (some (.bool b))
  | .str s => .ok (some (.str s))
  | .list l =>
    if l.all isNumeric then
      -- gradient branch (vacuously taken by the empty list)
      let scaled : ℚ := t * ((l.length : ℚ) - 1)
      let i0 : ℤ := pytrunc scaled
      let i1 : ℤ := min ((l.length : ℤ) - 1) (i0 + 1)
      let frac : ℚ := scaled - (i0 : ℚ)
      match pyIndex l i0 with
      | .error e => .error e
      | .ok v0 =>
        match pyIndex l i1 with
        | .error e => .error e
        | .ok v1 => .ok (some (.num ((1 - frac) * numVal v0 + frac * numVal v1)))
    else if l.all isScalar then
      -- step-sequence branch
      match pyIndex l (pytrunc (t * ((l.length : ℚ) - 1))) with
      | .error e => .error e
      | .ok v => .ok (some v)
    else
      evalCondList tensor_name l t
  | .cond _ _ => .ok none

/-- The `for cond in setting:` loop of the conditional branch; a non-match
falls through to the final `return None` of the function; a non-`ConditionalParameter`
element makes `cond.filter` raise `AttributeError`. -/
def evalCondList (tensor_name : String) (l : List Setting) (t : ℚ) :
    Except PyErr (Option Setting) :=
  match l with
  | [] => .ok none
  | .cond value f :: rest =>
    if filterMatches f tensor_name then
      evaluate_setting tensor_name value t
    else
      evalCondList tensor_name rest t
  | _ :: _ => .error (.attributeError "filter")

end

/-- `Dict[str, ParameterSetting]` as an association list. -/
abbrev ParamDict := List (String × Setting)

/-- Python `name in d` for a parameter dict. -/
def dictHas (d : ParamDict) (k : String) : Bool := d.any (fun kv => kv.1 == k)

/-- Python `d[name]` for a parameter dict (callers guard with `dictHas`, so the
fallback value is unreachable there). -/
def dictGet (d : ParamDict) (k : String) : Setting :=
  match d.find? (fun kv => kv.1 == k) with
  | some kv => kv.2
  | none => .num 0

/-- Python truthiness of an optional list-like value: `None` and the empty
list/dict are falsy. -/
def pyTruthy {α : Type} (o : Option (List α)) : Bool :=
  match o with
  | none => false
  | some l => !l.isEmpty

structure InputSliceDefinition where
  model : String
  layer_range : ℤ × ℤ
  parameters : Option ParamDict := none

structure InputModelDefinition where
  model : String
  parameters : Option ParamDict := none

structure OutputSliceDefinition where
  sources : List InputSliceDefinition
  base_model : Option String := none
  residual_weight : Option ℚ := none
  parameters : Option ParamDict := none

/-- `Dict[str, Dict[str, ParameterSetting]]` (the `model_parameters` field). -/
abbrev ModelParamDict := List (String × ParamDict)

/-- Python `key in model_parameters`. -/
def mpHas (d : ModelParamDict) (k : String) : Bool := d.any (fun kv => kv.1 == k)

structure MergeConfiguration where
  merge_method : String
  slices : Option (List OutputSliceDefinition) := none
  models : Option (List InputModelDefinition) := none
  model_parameters : Option ModelParamDict := none
  parameters : Option ParamDict := none
  base_model : Option String := none
  dtype : Option String := none

/-- Python `set.add`: insert a model reference unless already present. -/
def insertModel (acc : List ModelReference) (m : ModelReference) :
    List ModelReference :=
  if m ∈ acc then acc else acc ++ [m]

/-- `MergeConfiguration.referenced_models` of `src/config.py`: collects parses
of `model_parameters` keys into a set, then iterates `self.slices` — which
raises `TypeError` when `slices` is `None` (`for s in None`). -/
def MergeConfiguration.referenced_models (c : MergeConfiguration) :
    Except PyErr (List ModelReference) :=
  let s0 : List ModelReference :=
    if pyTruthy c.model_parameters then
      (c.model_parameters.getD []).foldl
        (fun acc kv => insertModel acc (ModelReference.parse kv.1)) []
    else []
  match c.slices with
  | none => .error (.typeError "NoneType object is not iterable")
  | some sl =>
    .ok (sl.foldl
      (fun acc s =>
        s.sources.foldl (fun a src => insertModel a (ModelReference.parse src.model)) acc)
      s0)

/-- `MergeConfiguration.validate` of `src/config.py`. -/
def MergeConfiguration.validate (c : MergeConfiguration) : Except PyErr Unit :=
  if (!pyTruthy c.slices && !pyTruthy c.models) ||
      (pyTruthy c.slices && pyTruthy c.models) then
    .error (.runtimeError "Must specify either output slices or models to merge")
  else
    .ok ()

structure ConfigReader where
  config : MergeConfiguration
  tensor_name : String
  t : ℚ
  slice_out : Option OutputSliceDefinition
  slices_in : Option (List InputSliceDefinition)

/-- The per-source-in-slice loop of `ConfigReader.parameter`: the first input
slice whose model identity equals `str(model)` and whose parameter dict is
truthy and contains `name` (non-matching slices are skipped). Guarded by
`if model and self.slices_in:`. -/
def ConfigReader.scope1 (r : ConfigReader) (name : String)
    (model : Option ModelReference) : Option InputSliceDefinition :=
  match model with
  | none => none
  | some m =>
    if pyTruthy r.slices_in then
      (r.slices_in.getD []).find? (fun s =>
        s.model == m.ident && pyTruthy s.parameters &&
          dictHas (s.parameters.getD []) name)
    else none

/-- `if model else ""` suffix of the missing-required message. -/
def ConfigReader.missingSuffix (r : ConfigReader) (model : Option ModelReference) :
    String :=
  match model with
  | some m => " for " ++ m.ident ++ "." ++ r.tensor_name
  | none => ""

/-- The missing-required-parameter message of `ConfigReader.parameter`. -/
def ConfigReader.missingMsg (r : ConfigReader) (name : String)
    (model : Option ModelReference) : String :=
  "Missing required parameter " ++ name ++ r.missingSuffix model

/-- `self.config.model_parameters and model and str(model) in
self.config.model_parameters` — the guard of the per-model-global scope. -/
def ConfigReader.scope3cond (r : ConfigReader) (model : Option ModelReference) :
    Bool :=
  match model with
  | none => false
  | some m =>
    pyTruthy r.config.model_parameters &&
      mpHas (r.config.model_parameters.getD []) m.ident

/-- Global scope and final fallback of `ConfigReader.parameter`. -/
def ConfigReader.parameterScope4 (r : ConfigReader) (name : String)
    (model : Option ModelReference) (default : Option Setting) (required : Bool) :
    Except PyErr (Option Setting) :=
  if pyTruthy r.config.parameters && dictHas (r.config.parameters.getD []) name then
    evaluate_setting r.tensor_name (dictGet (r.config.parameters.getD []) name) r.t
  else if required then
    .error (.runtimeError (r.missingMsg name model))
  else
    .ok default

/-- Per-model-global scope of `ConfigReader.parameter`. When its guard holds,
the source evaluates `self.slice_in.model` — but `ConfigReader` has no field
`slice_in`, so the attribute access raises `AttributeError` before the inner
`name in …` test can run. -/
def ConfigReader.parameterScope3 (r : ConfigReader) (name : String)
    (model : Option ModelReference) (default : Option Setting) (required : Bool) :
    Except PyErr (Option Setting) :=
  if r.scope3cond model then
    .error (.attributeError "slice_in")
  else
    r.parameterScope4 name model default required

/-- Output-slice scope of `ConfigReader.parameter`. -/
def ConfigReader.parameterScope2 (r : ConfigReader) (name : String)
    (model : Option ModelReference) (default : Option Setting) (required : Bool) :
    Except PyErr (Option Setting) :=
  match r.slice_out with
  | some so =>
    if pyTruthy so.parameters && dictHas (so.parameters.getD []) name then
      evaluate_setting r.tensor_name (dictGet (so.parameters.getD []) name) r.t
    else
      r.parameterScope3 name model default required
  | none => r.parameterScope3 name model default required

/-- `ConfigReader.parameter(name, model, default, required)` of
`src/config.py`: the four-scope cascade with final fallback. -/
def ConfigReader.parameter (r : ConfigReader) (name : String)
    (model : Option ModelReference) (default : Option Setting) (required : Bool) :
    Except PyErr (Option Setting) :=
  match r.scope1 name model with
  | some s =>
    evaluate_setting r.tensor_name (dictGet (s.parameters.getD []) name) r.t
  | none => r.parameterScope2 name model default required

/-! ### Helper lemmas -/

@[simp]
theorem pytrunc_zero : pytrunc 0 = 0 := by simp [pytrunc]

@[simp]
theorem pytrunc_one : pytrunc 1 = 1 := by simp [pytrunc]

theorem pytrunc_nonneg {q : ℚ} (h : 0 ≤ q) : pytrunc q = ⌊q⌋ := by
  simp [pytrunc, h]

theorem pytrunc_intCast (z : ℤ) : pytrunc (z : ℚ) = z := by
  rcases le_or_lt 0 (z : ℚ) with h | h
  · rw [pytrunc_nonneg h, Int.floor_intCast]
  · unfold pytrunc
    rw [if_neg (not_le.mpr h), Int.ceil_intCast]

@[simp]
theorem pyIndex_nil (i : ℤ) : pyIndex [] i = .error .indexError := by
  simp only [pyIndex, List.length_nil]
  split <;> rw [dif_neg (by omega)]

theorem pyIndex_nonneg {xs : List Setting} {i : ℤ} (h0 : 0 ≤ i)
    (h1 : i < xs.length) :
    pyIndex xs i = .ok (xs.get ⟨i.toNat, by omega⟩) := by
  simp only [pyIndex]
  split
  next hlt => exact absurd hlt (not_lt.mpr h0)
  next => rw [dif_pos ⟨h0, h1⟩]

@[simp]
theorem pyIndex_zero (x : Setting) (xs : List Setting) :
    pyIndex (x :: xs) 0 = .ok x := by
  rw [pyIndex_nonneg le_rfl (by simp)]
  rfl

@[simp]
theorem pyIndex_cons_one (x y : Setting) (ys : List Setting) :
    pyIndex (x :: y :: ys) 1 = .ok y := by
  rw [pyIndex_nonneg (by omega) (by simp)]
  rfl

theorem evalCondList_no_match (tensor_name : String) (t : ℚ) :
    ∀ conds : List (Setting × Option String),
      (∀ c ∈ conds, filterMatches c.2 tensor_name = false) →
      evalCondList tensor_name (conds.map (fun c => .cond c.1 c.2)) t = .ok none := by
  intro conds
  induction conds with
  | nil => intro _; rfl
  | cons c rest ih =>
    intro h
    have hc : filterMatches c.2 tensor_name = false := h c (List.mem_cons_self c rest)
    simp only [List.map_cons, evalCondList, hc, Bool.false_eq_true, if_false]
    exact ih (fun d hd => h d (List.mem_cons_of_mem c hd))

theorem all_cond_not_numeric (c0 : Setting × Option String)
    (rest : List (Setting × Option String)) :
    ((c0 :: rest).map (fun c => Setting.cond c.1 c.2)).all isNumeric = false := by
  simp [isNumeric]

theorem all_cond_not_scalar (c0 : Setting × Option String)
    (rest : List (Setting × Option String)) :
    ((c0 :: rest).map (fun c => Setting.cond c.1 c.2)).all isScalar = false := by
  simp [isScalar]

/-! ### Claim theorems -/

/-- C2 counterexample: contrary to the claim, `evaluate_setting` applied to
the empty list does raise: `all` is vacuously true on `[]`, so the empty list
takes the numeric-gradient branch and the element access raises `IndexError`. -/
theorem c2_empty_list_raises :
    evaluate_setting "x" (.list []) 0 = .error .indexError := by
  simp [evaluate_setting]

/-- C2 (amended): for every tensor_name and t, `evaluate_setting` applied
to a *non-empty* list of `ConditionalParameter` none of whose filters is
`None`, `"*"`, or a substring of tensor_name returns the null sentinel
(`None`) and does not raise; the empty list instead takes the numeric-gradient
branch and raises `IndexError`. -/
theorem c2_conditional_no_match_returns_none
    (conds : List (Setting × Option String)) (tensor_name : String) (t : ℚ)
    (hne : conds ≠ [])
    (hm : ∀ c ∈ conds, filterMatches c.2 tensor_name = false) :
    evaluate_setting tensor_name (.list (conds.map (fun c => .cond c.1 c.2))) t =
      .ok none := by
  obtain ⟨c0, rest, rfl⟩ : ∃ c0 rest, conds = c0 :: rest := by
    cases conds with
    | nil => exact absurd rfl hne
    | cons c0 rest => exact ⟨c0, rest, rfl⟩
  rw [evaluate_setting]
  rw [all_cond_not_numeric, all_cond_not_scalar]
  simp only [Bool.false_eq_true, if_false]
  exact evalCondList_no_match tensor_name t (c0 :: rest) hm

/-- Witness for C2: a one-element conditional list whose filter `"mlp"` does
not match tensor name `"attn_q"` evaluates to the null sentinel. -/
theorem c2_conditional_no_match_returns_none_witness :
    evaluate_setting "attn_q" (.list [.cond (.num 5) (some "mlp")]) 0 = .ok none :=
  c2_conditional_no_match_returns_none [((.num 5 : Setting), some "mlp")] "attn_q" 0
    (by simp) (by decide)

def cfg_c1 : MergeConfiguration :=
  { merge_method := "linear",
    models := some [{ model := "modelA" }],
    model_parameters := some [("modelA", [("weight", .num (1/2))])] }

def reader_c1 : ConfigReader :=
  { config := cfg_c1, tensor_name := "layer0.weight", t := 0,
    slice_out := none, slices_in := none }

/-- C1: the claim (the per-model-global scope evaluates and returns
without raising) is what the spec intends, but the code reads
`self.slice_in.model` — `ConfigReader` has no field `slice_in` — so the
resolution raises `AttributeError` at the failing input: `model_parameters`
maps `"modelA"` to a dict containing `"weight"`, the model is supplied, and no
narrower scope declares the name. -/
theorem c1_per_model_global_raises_attribute_error :
    reader_c1.parameter "weight" (some (ModelReference.parse "modelA")) none false =
      .error (.attributeError "slice_in") := rfl

/-- A list-valued optional field is "non-empty" when it holds a non-empty
list (Python truthiness of `None`/`[]`/non-empty list). -/
def isNonEmptyList {α : Type} (o : Option (List α)) : Prop :=
  ∃ l, o = some l ∧ l ≠ []

theorem pyTruthy_iff {α : Type} (o : Option (List α)) :
    pyTruthy o = true ↔ isNonEmptyList o := by
  cases o with
  | none => simp [pyTruthy, isNonEmptyList]
  | some l => simp [pyTruthy, isNonEmptyList]

/-- C9: `MergeConfiguration.validate` accepts (returns without raising,
and without modifying the configuration — the embedding is a pure function of
the configuration) exactly when one of `slices`/`models` is non-empty and the
other is empty or absent, and raises exactly when both are non-empty or both
are empty/absent. -/
theorem c9_validate_xor (c : MergeConfiguration) :
    (c.validate = .ok () ↔
      ((isNonEmptyList c.slices ∧ ¬ isNonEmptyList c.models) ∨
       (isNonEmptyList c.models ∧ ¬ isNonEmptyList c.slices))) ∧
    ((∃ msg, c.validate = .error (.runtimeError msg)) ↔
      ((isNonEmptyList c.slices ∧ isNonEmptyList c.models) ∨
       (¬ isNonEmptyList c.slices ∧ ¬ isNonEmptyList c.models))) := by
  have hs := pyTruthy_iff c.slices
  have hm := pyTruthy_iff c.models
  unfold MergeConfiguration.validate
  rcases hb1 : pyTruthy c.slices <;> rcases hb2 : pyTruthy c.models <;>
    rw [hb1] at hs <;> rw [hb2] at hm <;>
    simp_all

theorem floor_eq_zero_of_Ico {t : ℚ} (h0 : 0 ≤ t) (h1 : t < 1) : ⌊t⌋ = 0 := by
  rw [Int.floor_eq_zero_iff]
  exact ⟨h0, h1⟩

/-- C8: for a 2-point numeric gradient `[a, b]`, any tensor name, and any
`t ∈ [0, 1]`, `evaluate_setting` returns exactly `a + t * (b - a)`. -/
theorem c8_two_point_gradient_linear (a b : ℚ) (tensor_name : String) (t : ℚ)
    (h0 : 0 ≤ t) (h1 : t ≤ 1) :
    evaluate_setting tensor_name (.list [.num a, .num b]) t =
      .ok (some (.num (a + t * (b - a)))) := by
  rw [evaluate_setting]
  rcases eq_or_lt_of_le h1 with heq | hlt
  · subst heq
    norm_num [isNumeric, pytrunc_one, numVal]
  · have hfloor : pytrunc (t * ((([Setting.num a, .num b] : List Setting).length : ℚ) - 1)) = 0 := by
      norm_num
      rw [pytrunc_nonneg (by linarith), floor_eq_zero_of_Ico h0 hlt]
    norm_num [isNumeric] at hfloor ⊢
    rw [hfloor]
    norm_num [numVal]
    ring_nf

theorem all_map_num_numeric (qs : List ℚ) :
    (qs.map Setting.num).all isNumeric = true := by
  induction qs with
  | nil => rfl
  | cons q rest ih => simp [isNumeric, ih]

theorem pyIndex_natCast (xs : List Setting) (n : ℕ) (h : n < xs.length) :
    pyIndex xs (n : ℤ) = .ok (xs.get ⟨n, h⟩) := by
  rw [pyIndex_nonneg (by positivity) (by exact_mod_cast h)]
  simp

/-- C5: for every all-numeric gradient list with at least two control
points, `evaluate_setting` at `t = 0` returns the first element exactly and at
`t = 1` returns the last element exactly. -/
theorem c5_gradient_endpoints (qs : List ℚ) (tensor_name : String)
    (h2 : 2 ≤ qs.length) :
    evaluate_setting tensor_name (.list (qs.map .num)) 0 =
      .ok (some (.num (qs.getD 0 0))) ∧
    evaluate_setting tensor_name (.list (qs.map .num)) 1 =
      .ok (some (.num (qs.getD (qs.length - 1) 0))) := by
  obtain ⟨a, b, rest, rfl⟩ : ∃ a b rest, qs = a :: b :: rest := by
    rcases qs with _ | ⟨a, _ | ⟨b, rest⟩⟩
    · simp at h2
    · simp at h2
    · exact ⟨a, b, rest, rfl⟩
  constructor
  · rw [evaluate_setting, if_pos (all_map_num_numeric (a :: b :: rest))]
    simp only [List.map_cons, List.length_cons, List.length_map, zero_mul,
      pytrunc_zero, zero_add, Int.cast_zero, sub_zero, pyIndex_zero]
    have hmin : min (((rest.length + 1 + 1 : ℕ) : ℤ) - 1) 1 = 1 := by
      push_cast; omega
    rw [hmin, pyIndex_cons_one]
    norm_num [numVal, List.getD]
  · rw [evaluate_setting, if_pos (all_map_num_numeric (a :: b :: rest))]
    have hcast : (1 : ℚ) * (((rest.length + 1 + 1 : ℕ) : ℚ) - 1) =
        (((rest.length + 1 : ℕ) : ℤ) : ℚ) := by push_cast; ring
    simp only [List.map_cons, List.length_cons, List.length_map, one_mul]
    have hcast2 : (((rest.length + 1 + 1 : ℕ) : ℚ) - 1) =
        (((rest.length + 1 : ℕ) : ℤ) : ℚ) := by push_cast; ring
    rw [hcast2, pytrunc_intCast]
    have hmin : min (((rest.length + 1 + 1 : ℕ) : ℤ) - 1)
        (((rest.length + 1 : ℕ) : ℤ) + 1) = ((rest.length + 1 : ℕ) : ℤ) := by
      push_cast; omega
    rw [hmin]
    have hget : (Setting.num a :: Setting.num b :: rest.map Setting.num).get
        ⟨rest.length + 1, by simp⟩ =
        .num ((a :: b :: rest).getD (rest.length + 1) 0) := by
      clear h2 hcast hcast2 hmin
      induction rest generalizing a b with
      | nil => rfl
      | cons c cs ih => exact ih b c
    rw [pyIndex_natCast _ _ (by simp), hget]
    norm_num [numVal]

/-- Witness for C5 at the gradient `[3, 7]`. -/
theorem c5_gradient_endpoints_witness :
    evaluate_setting "w" (.list [.num 3, .num 7]) 0 = .ok (some (.num 3)) ∧
    evaluate_setting "w" (.list [.num 3, .num 7]) 1 = .ok (some (.num 7)) := by
  have h := c5_gradient_endpoints [3, 7] "w" (by norm_num)
  simpa using h

/-- Witness for C8 at `[1, 5]`, `t = 1/4`: `1 + (1/4)*(5-1) = 2`. -/
theorem c8_two_point_gradient_linear_witness :
    evaluate_setting "w" (.list [.num 1, .num 5]) (1/4) = .ok (some (.num 2)) := by
  have h := c8_two_point_gradient_linear 1 5 "w" (1/4) (by norm_num) (by norm_num)
  rw [h]
  norm_num

theorem all_cond_ne_not_numeric (l : List (Setting × Option String)) (h : l ≠ []) :
    (l.map (fun c => Setting.cond c.1 c.2)).all isNumeric = false := by
  cases l with
  | nil => exact absurd rfl h
  | cons c0 rest => simp [isNumeric]

theorem all_cond_ne_not_scalar (l : List (Setting × Option String)) (h : l ≠ []) :
    (l.map (fun c => Setting.cond c.1 c.2)).all isScalar = false := by
  cases l with
  | nil => exact absurd rfl h
  | cons c0 rest => simp [isScalar]

theorem evalCondList_append_match (tensor_name : String) (t : ℚ)
    (pre : List (Setting × Option String)) (v : Setting) (f : Option String)
    (post : List (Setting × Option String))
    (hpre : ∀ c ∈ pre, filterMatches c.2 tensor_name = false)
    (hf : filterMatches f tensor_name = true) :
    evalCondList tensor_name ((pre ++ (v, f) :: post).map (fun c => .cond c.1 c.2)) t =
      evaluate_setting tensor_name v t := by
  induction pre with
  | nil =>
    simp only [List.nil_append, List.map_cons, evalCondList, hf, if_true]
  | cons p pre ih =>
    have hp : filterMatches p.2 tensor_name = false := hpre p (List.mem_cons_self p pre)
    simp only [List.cons_append, List.map_cons, evalCondList, hp,
      Bool.false_eq_true, if_false]
    exact ih (fun d hd => hpre d (List.mem_cons_of_mem p hd))

/-- C6: for a list of `ConditionalParameter`, `evaluate_setting` selects
the first element whose filter is `None`, `"*"`, or a substring of the tensor
name, recursively evaluates its value with the same tensor name and `t`, and
never consults later elements. -/
theorem c6_conditional_first_match
    (pre post : List (Setting × Option String)) (v : Setting) (f : Option String)
    (tensor_name : String) (t : ℚ)
    (hpre : ∀ c ∈ pre, filterMatches c.2 tensor_name = false)
    (hf : filterMatches f tensor_name = true) :
    evaluate_setting tensor_name
      (.list ((pre ++ (v, f) :: post).map (fun c => .cond c.1 c.2))) t =
      evaluate_setting tensor_name v t := by
  have hne : pre ++ (v, f) :: post ≠ [] := by simp
  rw [evaluate_setting,
    if_neg (by rw [all_cond_ne_not_numeric _ hne]; exact Bool.false_ne_true),
    if_neg (by rw [all_cond_ne_not_scalar _ hne]; exact Bool.false_ne_true)]
  exact evalCondList_append_match tensor_name t pre v f post hpre hf

/-- Witness for C6: the example of the spec, `[{filter:"attn", value:1},
{filter:"*", value:2}]` — a tensor name containing `"attn"` resolves to `1`,
any other name resolves to `2`. -/
theorem c6_conditional_first_match_witness :
    evaluate_setting "model.attn.q"
      (.list [.cond (.num 1) (some "attn"), .cond (.num 2) (some "*")]) 0 =
      .ok (some (.num 1)) ∧
    evaluate_setting "model.mlp.fc"
      (.list [.cond (.num 1) (some "attn"), .cond (.num 2) (some "*")]) 0 =
      .ok (some (.num 2)) := by
  constructor
  · have h := c6_conditional_first_match [] [((.num 2 : Setting), some "*")]
      (.num 1) (some "attn") "model.attn.q" 0 (by simp) (by decide)
    simpa [evaluate_setting] using h
  · have h := c6_conditional_first_match [((.num 1 : Setting), some "attn")] []
      (.num 2) (some "*") "model.mlp.fc" 0 (by decide) (by decide)
    simpa [evaluate_setting] using h

/-- The numeric interpolation computed by the gradient branch of
`evaluate_setting` (rule 2 of the dispatch), as a standalone function. -/
def gradLerp (l : List Setting) (t : ℚ) : ℚ :=
  let scaled : ℚ := t * ((l.length : ℚ) - 1)
  let i0 : ℤ := pytrunc scaled
  let i1 : ℤ := min ((l.length : ℤ) - 1) (i0 + 1)
  let frac : ℚ := scaled - (i0 : ℚ)
  (1 - frac) * numVal (l.getD i0.toNat (.num 0)) +
    frac * numVal (l.getD i1.toNat (.num 0))

theorem getD_eq_get (xs : List Setting) (n : ℕ) (h : n < xs.length) (d : Setting) :
    xs.getD n d = xs.get ⟨n, h⟩ := by
  induction xs generalizing n with
  | nil => simp at h
  | cons x rest ih =>
    cases n with
    | zero => rfl
    | succ m => exact ih m (by simpa using h)

theorem all_map_bool_numeric (bs : List Bool) :
    (bs.map Setting.bool).all isNumeric = true := by
  induction bs with
  | nil => rfl
  | cons b rest ih => simp [isNumeric, ih]

theorem gradIndexBounds (len : ℕ) (t : ℚ) (hlen : 1 ≤ len) (h0 : 0 ≤ t)
    (h1 : t ≤ 1) :
    0 ≤ pytrunc (t * ((len : ℚ) - 1)) ∧
      pytrunc (t * ((len : ℚ) - 1)) < (len : ℤ) ∧
      0 ≤ min ((len : ℤ) - 1) (pytrunc (t * ((len : ℚ) - 1)) + 1) ∧
      min ((len : ℤ) - 1) (pytrunc (t * ((len : ℚ) - 1)) + 1) < (len : ℤ) := by
  have hsub : (0 : ℚ) ≤ (len : ℚ) - 1 := by
    have : (1 : ℚ) ≤ (len : ℚ) := by exact_mod_cast hlen
    linarith
  have hsc0 : 0 ≤ t * ((len : ℚ) - 1) := mul_nonneg h0 hsub
  have hscle : t * ((len : ℚ) - 1) ≤ (len : ℚ) - 1 := mul_le_of_le_one_left hsub h1
  rw [pytrunc_nonneg hsc0]
  have hnn : 0 ≤ ⌊t * ((len : ℚ) - 1)⌋ := Int.floor_nonneg.mpr hsc0
  have hle : ⌊t * ((len : ℚ) - 1)⌋ ≤ (len : ℤ) - 1 :=
    calc ⌊t * ((len : ℚ) - 1)⌋ ≤ ⌊(len : ℚ) - 1⌋ := Int.floor_le_floor hscle
      _ = (len : ℤ) - 1 := by
        rw [show ((len : ℚ) - 1) = (((len : ℤ) - 1 : ℤ) : ℚ) by push_cast; ring,
          Int.floor_intCast]
  refine ⟨hnn, by omega, by omega, by omega⟩

/-- C10: a non-empty all-boolean list takes the numeric-gradient branch of
`evaluate_setting` (Python `bool` is an `int` subtype), returning the linear
interpolation of the booleans as 0/1 numbers — a `num` result that is never an
element of the boolean list itself; the step-sequence branch is never taken. -/
theorem c10_all_bool_takes_gradient_branch
    (bs : List Bool) (tensor_name : String) (t : ℚ)
    (hne : bs ≠ []) (h0 : 0 ≤ t) (h1 : t ≤ 1) :
    evaluate_setting tensor_name (.list (bs.map .bool)) t =
      .ok (some (.num (gradLerp (bs.map .bool) t))) ∧
    ∀ q : ℚ, Setting.num q ∉ bs.map Setting.bool := by
  have hlen : 1 ≤ bs.length := by
    cases bs with
    | nil => exact absurd rfl hne
    | cons b rest => simp
  obtain ⟨hb0, hb1, hb2, hb3⟩ := gradIndexBounds bs.length t hlen h0 h1
  constructor
  · rw [evaluate_setting, if_pos (all_map_bool_numeric bs)]
    simp only [List.length_map]
    rw [pyIndex_nonneg hb0 (by rw [List.length_map]; exact hb1),
      pyIndex_nonneg hb2 (by rw [List.length_map]; exact hb3)]
    rw [gradLerp]
    simp only [List.length_map]
    rw [getD_eq_get _ _ (by simp only [List.length_map]; omega) _,
      getD_eq_get _ _ (by simp only [List.length_map]; omega) _]
  · intro q
    simp [List.mem_map]

/-- Witness for C10: `[True, False]` at `t = 1/2` evaluates to the number
`0.5`, which is not an element of the list. -/
theorem c10_all_bool_takes_gradient_branch_witness :
    evaluate_setting "x" (.list [.bool true, .bool false]) (1/2) =
      .ok (some (.num (1/2))) ∧
    Setting.num (1/2) ∉ [Setting.bool true, Setting.bool false] := by
  constructor
  · have h := (c10_all_bool_takes_gradient_branch [true, false] "x" (1/2)
      (by simp) (by norm_num) (by norm_num)).1
    rw [show (Setting.list [.bool true, .bool false]) =
        .list ([true, false].map .bool) from rfl, h]
    norm_num [gradLerp, numVal, pytrunc, List.getD]
  · exact (c10_all_bool_takes_gradient_branch [true, false] "x" (1/2)
      (by simp) (by norm_num) (by norm_num)).2 (1/2)

theorem pyIndex_or (xs : List Setting) (i : ℤ) :
    (∃ v, pyIndex xs i = .ok v) ∨ pyIndex xs i = .error .indexError := by
  unfold pyIndex
  dsimp only
  split <;> split
  · exact .inl ⟨_, rfl⟩
  · exact .inr rfl
  · exact .inl ⟨_, rfl⟩
  · exact .inr rfl

theorem eval_ne_runtimeError_aux (k : ℕ) :
    (∀ s : Setting, sizeOf s ≤ k → ∀ tn : String, ∀ t : ℚ, ∀ msg : String,
      evaluate_setting tn s t ≠ .error (.runtimeError msg)) ∧
    (∀ l : List Setting, sizeOf l ≤ k → ∀ tn : String, ∀ t : ℚ, ∀ msg : String,
      evalCondList tn l t ≠ .error (.runtimeError msg)) := by
  induction k using Nat.strong_induction_on with
  | _ k ih =>
  constructor
  · intro s hs tn t msg
    cases s with
    | num q => simp [evaluate_setting]
    | bool b => simp [evaluate_setting]
    | str v => simp [evaluate_setting]
    | cond v f => simp [evaluate_setting]
    | list l =>
      have hsl : sizeOf l < k := by
        have := hs
        simp only [Setting.list.sizeOf_spec] at this
        omega
      rw [evaluate_setting]
      dsimp only
      split
      · rcases pyIndex_or l (pytrunc (t * ((l.length : ℚ) - 1))) with ⟨v0, hv0⟩ | hv0 <;>
          rw [hv0]
        · rcases pyIndex_or l
              (min ((l.length : ℤ) - 1) (pytrunc (t * ((l.length : ℚ) - 1)) + 1)) with
            ⟨v1, hv1⟩ | hv1 <;> rw [hv1] <;> simp
        · simp
      · split
        · rcases pyIndex_or l (pytrunc (t * ((l.length : ℚ) - 1))) with ⟨v, hv⟩ | hv <;>
            rw [hv] <;> simp
        · exact (ih (sizeOf l) hsl).2 l le_rfl tn t msg
  · intro l hl tn t msg
    cases l with
    | nil => simp [evalCondList]
    | cons hd rest =>
      have hrest : sizeOf rest < k := by
        have := hl
        simp only [List.cons.sizeOf_spec] at this
        have hpos : 0 < sizeOf hd := by
          cases hd <;> simp
        omega
      cases hd with
      | cond v f =>
        have hv : sizeOf v < k := by
          have := hl
          simp only [List.cons.sizeOf_spec, Setting.cond.sizeOf_spec] at this
          omega
        rw [evalCondList]
        split
        · exact (ih (sizeOf v) hv).1 v le_rfl tn t msg
        · exact (ih (sizeOf rest) hrest).2 rest le_rfl tn t msg
      | num q => simp [evalCondList]
      | bool b => simp [evalCondList]
      | str sv => simp [evalCondList]
      | list ls => simp [evalCondList]

/-- `evaluate_setting` can raise `IndexError` or `AttributeError` but never a
`RuntimeError`: the missing-required-parameter error can only originate from
the final fallback of the resolver. -/
theorem evaluate_setting_ne_runtimeError (tn : String) (s : Setting) (t : ℚ)
    (msg : String) :
    evaluate_setting tn s t ≠ .error (.runtimeError msg) :=
  (eval_ne_runtimeError_aux (sizeOf s)).1 s le_rfl tn t msg

/-- The structural check of the output-slice scope: the context has a current
output slice whose (truthy) parameter dict contains `name`. -/
def ConfigReader.scope2Declares (r : ConfigReader) (name : String) : Bool :=
  match r.slice_out with
  | some so => pyTruthy so.parameters && dictHas (so.parameters.getD []) name
  | none => false

/-- The structural check of the global scope: the configuration has a (truthy)
top-level parameter dict contains `name`. -/
def ConfigReader.scope4Declares (r : ConfigReader) (name : String) : Bool :=
  pyTruthy r.config.parameters && dictHas (r.config.parameters.getD []) name

theorem parameter_scope1_some (r : ConfigReader) (name : String)
    (model : Option ModelReference) (default : Option Setting) (required : Bool)
    (s : InputSliceDefinition) (hs : r.scope1 name model = some s) :
    r.parameter name model default required =
      evaluate_setting r.tensor_name (dictGet (s.parameters.getD []) name) r.t := by
  unfold ConfigReader.parameter
  rw [hs]

theorem parameter_scope2_eq (r : ConfigReader) (name : String)
    (model : Option ModelReference) (default : Option Setting) (required : Bool)
    (so : OutputSliceDefinition)
    (h1 : r.scope1 name model = none) (hso : r.slice_out = some so)
    (hd : (pyTruthy so.parameters && dictHas (so.parameters.getD []) name) = true) :
    r.parameter name model default required =
      evaluate_setting r.tensor_name (dictGet (so.parameters.getD []) name) r.t := by
  unfold ConfigReader.parameter
  rw [h1]
  unfold ConfigReader.parameterScope2
  rw [hso]
  dsimp only
  rw [if_pos hd]

theorem parameter_scope4_eq (r : ConfigReader) (name : String)
    (model : Option ModelReference) (default : Option Setting) (required : Bool)
    (h1 : r.scope1 name model = none) (h2 : r.scope2Declares name = false)
    (h3 : r.scope3cond model = false) (h4 : r.scope4Declares name = true) :
    r.parameter name model default required =
      evaluate_setting r.tensor_name (dictGet (r.config.parameters.getD []) name) r.t := by
  unfold ConfigReader.parameter
  rw [h1]
  unfold ConfigReader.parameterScope2
  unfold ConfigReader.scope2Declares at h2
  have hrest : r.parameterScope3 name model default required =
      evaluate_setting r.tensor_name (dictGet (r.config.parameters.getD []) name) r.t := by
    unfold ConfigReader.parameterScope3
    rw [if_neg (by simp [h3])]
    unfold ConfigReader.parameterScope4
    unfold ConfigReader.scope4Declares at h4
    rw [if_pos h4]
  cases hso : r.slice_out with
  | some so =>
    rw [hso] at h2
    dsimp only at h2 ⊢
    rw [if_neg (by simp [h2]), hrest]
  | none =>
    dsimp only
    rw [hrest]

theorem parameter_fallback_eq (r : ConfigReader) (name : String)
    (model : Option ModelReference) (default : Option Setting) (required : Bool)
    (h1 : r.scope1 name model = none) (h2 : r.scope2Declares name = false)
    (h3 : r.scope3cond model = false) (h4 : r.scope4Declares name = false) :
    r.parameter name model default required =
      if required then .error (.runtimeError (r.missingMsg name model))
      else .ok default := by
  unfold ConfigReader.parameter
  rw [h1]
  unfold ConfigReader.parameterScope2
  unfold ConfigReader.scope2Declares at h2
  have hrest : r.parameterScope3 name model default required =
      if required then .error (.runtimeError (r.missingMsg name model))
      else .ok default := by
    unfold ConfigReader.parameterScope3
    rw [if_neg (by simp [h3])]
    unfold ConfigReader.parameterScope4
    unfold ConfigReader.scope4Declares at h4
    rw [if_neg (by simp [h4])]
  cases hso : r.slice_out with
  | some so =>
    rw [hso] at h2
    dsimp only at h2 ⊢
    rw [if_neg (by simp [h2]), hrest]
  | none =>
    dsimp only
    rw [hrest]

theorem isPrefixOf_append (p v : List Char) : p.isPrefixOf (p ++ v) = true := by
  induction p with
  | nil => exact List.isPrefixOf_nil_left
  | cons c cs ih => simp [List.isPrefixOf, ih]

theorem strIn_append_middle (a b c : String) : strIn b (a ++ b ++ c) = true := by
  unfold strIn
  refine List.any_eq_true.mpr ⟨a.data.length, List.mem_range.mpr ?_, ?_⟩
  · have : (a ++ b ++ c).data = a.data ++ (b.data ++ c.data) := by
      show (a.data ++ b.data) ++ c.data = _
      exact List.append_assoc a.data b.data c.data
    rw [this]
    simp only [List.length_append]
    omega
  · have : (a ++ b ++ c).data = a.data ++ (b.data ++ c.data) := by
      show (a.data ++ b.data) ++ c.data = _
      exact List.append_assoc a.data b.data c.data
    rw [this, List.drop_left]
    exact isPrefixOf_append b.data c.data

def cfg_c3 : MergeConfiguration :=
  { merge_method := "linear",
    models := some [{ model := "A" }],
    model_parameters := some [("A", [("weight", .num 3)])],
    parameters := some [("weight", .num 7)] }

def reader_c3 : ConfigReader :=
  { config := cfg_c3, tensor_name := "t0", t := 0,
    slice_out := none, slices_in := none }

/-- C3 counterexample: with `model_parameters = {"A": {"weight": 3}}` and a
global `{"weight": 7}`, resolving `"weight"` for model `A` with no slice
context makes per-model-global the first declaring scope; the claim says its
evaluation (`3`) is returned, but the code raises `AttributeError` (the
`slice_in` bug) instead. -/
theorem c3_per_model_global_scope_counterexample :
    reader_c3.parameter "weight" (some (ModelReference.parse "A")) none false =
      .error (.attributeError "slice_in") ∧
    evaluate_setting reader_c3.tensor_name (.num 3) reader_c3.t =
      .ok (some (.num 3)) :=
  ⟨rfl, rfl⟩

/-- C3 (amended): when the per-source-in-slice scope does not match and
the broken per-model-global guard is out of the way (no model supplied, or its
identity is not a `model_parameters` key), a name declared by the current
output slice parameter mapping resolves to the evaluation of the slice-level
setting — never the global one — even when that evaluation yields the null
sentinel; this is the first-declaring-scope-wins cascade restricted to the
scopes the code implements correctly. -/
theorem c3_slice_over_global (r : ConfigReader) (name : String)
    (model : Option ModelReference) (default : Option Setting) (required : Bool)
    (so : OutputSliceDefinition)
    (h1 : r.scope1 name model = none)
    (hso : r.slice_out = some so)
    (hp : pyTruthy so.parameters = true)
    (hk : dictHas (so.parameters.getD []) name = true) :
    r.parameter name model default required =
      evaluate_setting r.tensor_name (dictGet (so.parameters.getD []) name) r.t :=
  parameter_scope2_eq r name model default required so h1 hso (by rw [hp, hk]; rfl)

def so_c3w : OutputSliceDefinition :=
  { sources := [], parameters := some [("weight", .num 9)] }

def cfg_c3w : MergeConfiguration :=
  { merge_method := "linear",
    slices := some [so_c3w],
    parameters := some [("weight", .num 7)] }

def reader_c3w : ConfigReader :=
  { config := cfg_c3w, tensor_name := "t0", t := 0,
    slice_out := some so_c3w, slices_in := none }

/-- Witness for C3: slice-level `weight = 9` wins over global `weight = 7`. -/
theorem c3_slice_over_global_witness :
    reader_c3w.parameter "weight" none none false = .ok (some (.num 9)) := by
  rw [c3_slice_over_global reader_c3w "weight" none none false so_c3w rfl rfl
    (by decide) (by decide)]
  rfl

theorem parameter_eval_or_fallback (r : ConfigReader) (name : String)
    (model : Option ModelReference) (default : Option Setting) (required : Bool)
    (h3 : r.scope3cond model = false) :
    (∃ s : Setting, r.parameter name model default required =
        evaluate_setting r.tensor_name s r.t) ∨
    (r.parameter name model default required =
        (if required then .error (.runtimeError (r.missingMsg name model))
         else .ok default) ∧
      r.scope1 name model = none ∧ r.scope2Declares name = false ∧
      r.scope4Declares name = false) := by
  rcases hs1 : r.scope1 name model with _ | s
  · cases hb2 : r.scope2Declares name
    · cases hb4 : r.scope4Declares name
      · exact .inr ⟨parameter_fallback_eq r name model default required hs1 hb2 h3 hb4,
          rfl, rfl, rfl⟩
      · exact .inl ⟨_, parameter_scope4_eq r name model default required hs1 hb2 h3 hb4⟩
    · rcases hso : r.slice_out with _ | so
      · simp [ConfigReader.scope2Declares, hso] at hb2
      · have hd : (pyTruthy so.parameters && dictHas (so.parameters.getD []) name) = true := by
          simpa [ConfigReader.scope2Declares, hso] using hb2
        exact .inl ⟨_, parameter_scope2_eq r name model default required so hs1 hso hd⟩
  · exact .inl ⟨_, parameter_scope1_some r name model default required s hs1⟩

def cfg_c7 : MergeConfiguration :=
  { merge_method := "linear",
    models := some [{ model := "B" }],
    model_parameters := some [("B", [("other", .num 1)])] }

def reader_c7 : ConfigReader :=
  { config := cfg_c7, tensor_name := "t0", t := 0,
    slice_out := none, slices_in := none }

/-- C7 counterexample: `required = True`, no scope declares `"weight"`
(the `model_parameters` entry of the supplied model only contains `"other"`), yet
the resolution raises `AttributeError` — not the missing-required
`RuntimeError` the claim promises. -/
theorem c7_missing_required_counterexample :
    reader_c7.parameter "weight" (some (ModelReference.parse "B")) none true =
      .error (.attributeError "slice_in") ∧
    (Except.error (PyErr.attributeError "slice_in") : Except PyErr (Option Setting)) ≠
      .error (.runtimeError
        (reader_c7.missingMsg "weight" (some (ModelReference.parse "B")))) :=
  ⟨rfl, by simp⟩

/-- C7 (amended): provided no model is supplied whose identity string is a
key of a truthy `model_parameters` (otherwise the `slice_in` bug raises
`AttributeError` first), `ConfigReader.parameter` raises the
missing-required-parameter `RuntimeError` if and only if `required` is true
and no scope declares the name, with exactly the message
`missingMsg`; when `required` is false and no scope declares the name it
returns the supplied default unchanged; and the message contains the
parameter name and — when a model was supplied — the model identity and the
tensor name. -/
theorem c7_missing_required_iff (r : ConfigReader) (name : String)
    (model : Option ModelReference) (default : Option Setting) (required : Bool)
    (h3 : r.scope3cond model = false) :
    (∀ msg : String,
      r.parameter name model default required = .error (.runtimeError msg) ↔
        (required = true ∧ r.scope1 name model = none ∧
          r.scope2Declares name = false ∧ r.scope4Declares name = false ∧
          msg = r.missingMsg name model)) ∧
    ((r.scope1 name model = none ∧ r.scope2Declares name = false ∧
        r.scope4Declares name = false ∧ required = false) →
      r.parameter name model default required = .ok default) ∧
    strIn name (r.missingMsg name model) = true ∧
    (∀ m : ModelReference, model = some m →
      strIn m.ident (r.missingMsg name model) = true ∧
      strIn r.tensor_name (r.missingMsg name model) = true) := by
  refine ⟨fun msg => ⟨fun heq => ?_, fun hrhs => ?_⟩, fun hflags => ?_, ?_, fun m hm => ?_⟩
  · rcases parameter_eval_or_fallback r name model default required h3 with
      ⟨s, hev⟩ | ⟨hfb, hf1, hf2, hf4⟩
    · rw [hev] at heq
      exact absurd heq (evaluate_setting_ne_runtimeError _ _ _ _)
    · rw [hfb] at heq
      cases required with
      | false => simp at heq
      | true =>
        simp only [if_pos] at heq
        refine ⟨rfl, hf1, hf2, hf4, ?_⟩
        have := heq
        simp only [Except.error.injEq, PyErr.runtimeError.injEq] at this
        exact this.symm
  · obtain ⟨hreq, hf1, hf2, hf4, hmsg⟩ := hrhs
    subst hreq
    subst hmsg
    rw [parameter_fallback_eq r name model default true hf1 hf2 h3 hf4]
    simp
  · obtain ⟨hf1, hf2, hf4, hreq⟩ := hflags
    subst hreq
    rw [parameter_fallback_eq r name model default false hf1 hf2 h3 hf4]
    simp
  · unfold ConfigReader.missingMsg
    exact strIn_append_middle _ _ _
  · subst hm
    constructor
    · unfold ConfigReader.missingMsg ConfigReader.missingSuffix
      have hsh : "Missing required parameter " ++ name ++
          (" for " ++ m.ident ++ "." ++ r.tensor_name) =
          ("Missing required parameter " ++ name ++ " for ") ++ m.ident ++
            ("." ++ r.tensor_name) := by
        simp [String.append_assoc]
      rw [hsh]
      exact strIn_append_middle _ _ _
    · unfold ConfigReader.missingMsg ConfigReader.missingSuffix
      have hsh : "Missing required parameter " ++ name ++
          (" for " ++ m.ident ++ "." ++ r.tensor_name) =
          ("Missing required parameter " ++ name ++ " for " ++ m.ident ++ ".") ++
            r.tensor_name ++ "" := by
        simp [String.append_assoc]
      rw [hsh]
      exact strIn_append_middle _ _ _

def cfg_c7w : MergeConfiguration :=
  { merge_method := "linear", models := some [{ model := "M" }] }

def reader_c7w : ConfigReader :=
  { config := cfg_c7w, tensor_name := "layer.7.mlp", t := 1/2,
    slice_out := none, slices_in := none }

/-- Witness for C7: with no scope declaring `"weight"`, `required = True`
raises the missing-required `RuntimeError` and `required = False` returns the
default. -/
theorem c7_missing_required_iff_witness :
    reader_c7w.parameter "weight" none none true =
      .error (.runtimeError "Missing required parameter weight") ∧
    reader_c7w.parameter "weight" none none false = .ok none := by
  constructor
  · exact ((c7_missing_required_iff reader_c7w "weight" none none true rfl).1
      "Missing required parameter weight").mpr ⟨rfl, rfl, rfl, rfl, by decide⟩
  · exact (c7_missing_required_iff reader_c7w "weight" none none false rfl).2.1
      ⟨rfl, rfl, rfl, rfl⟩

theorem insertModel_nodup (acc : List ModelReference) (m : ModelReference)
    (h : acc.Nodup) : (insertModel acc m).Nodup := by
  unfold insertModel
  split
  · exact h
  next hmem =>
    rw [List.nodup_append]
    exact ⟨h, List.nodup_singleton m, by simpa using hmem⟩

theorem mem_insertModel (acc : List ModelReference) (m x : ModelReference) :
    x ∈ insertModel acc m ↔ x ∈ acc ∨ x = m := by
  unfold insertModel
  split
  next hmem =>
    constructor
    · exact fun hx => .inl hx
    · rintro (hx | rfl)
      · exact hx
      · exact hmem
  next => simp [List.mem_append]

theorem foldl_insertModel_nodup {α : Type} (f : α → ModelReference) :
    ∀ (l : List α) (acc : List ModelReference), acc.Nodup →
      (l.foldl (fun a e => insertModel a (f e)) acc).Nodup := by
  intro l
  induction l with
  | nil => exact fun acc h => h
  | cons e rest ih => exact fun acc h => ih _ (insertModel_nodup _ _ h)

theorem mem_foldl_insertModel {α : Type} (f : α → ModelReference) :
    ∀ (l : List α) (acc : List ModelReference) (x : ModelReference),
      x ∈ l.foldl (fun a e => insertModel a (f e)) acc ↔
        x ∈ acc ∨ ∃ e ∈ l, f e = x := by
  intro l
  induction l with
  | nil => simp
  | cons e rest ih =>
    intro acc x
    simp only [List.foldl_cons, ih, mem_insertModel, List.mem_cons]
    constructor
    · rintro ((hx | rfl) | ⟨d, hd, rfl⟩)
      · exact .inl hx
      · exact .inr ⟨e, .inl rfl, rfl⟩
      · exact .inr ⟨d, .inr hd, rfl⟩
    · rintro (hx | ⟨d, hd | hd, rfl⟩)
      · exact .inl (.inl hx)
      · subst hd
        exact .inl (.inr rfl)
      · exact .inr ⟨d, hd, rfl⟩

theorem foldl_sources_nodup :
    ∀ (sl : List OutputSliceDefinition) (acc : List ModelReference), acc.Nodup →
      (sl.foldl (fun acc s => s.sources.foldl
        (fun a src => insertModel a (ModelReference.parse src.model)) acc) acc).Nodup := by
  intro sl
  induction sl with
  | nil => exact fun acc h => h
  | cons s rest ih =>
    exact fun acc h => ih _
      (foldl_insertModel_nodup (fun src => ModelReference.parse src.model) s.sources acc h)

theorem mem_foldl_sources :
    ∀ (sl : List OutputSliceDefinition) (acc : List ModelReference) (x : ModelReference),
      x ∈ sl.foldl (fun acc s => s.sources.foldl
          (fun a src => insertModel a (ModelReference.parse src.model)) acc) acc ↔
        x ∈ acc ∨ ∃ s ∈ sl, ∃ src ∈ s.sources, ModelReference.parse src.model = x := by
  intro sl
  induction sl with
  | nil => simp
  | cons s rest ih =>
    intro acc x
    simp only [List.foldl_cons, ih, mem_foldl_insertModel, List.mem_cons]
    constructor
    · rintro ((hx | ⟨src, hsrc, rfl⟩) | ⟨s2, hs2, hrest⟩)
      · exact .inl hx
      · exact .inr ⟨s, .inl rfl, src, hsrc, rfl⟩
      · exact .inr ⟨s2, .inr hs2, hrest⟩
    · rintro (hx | ⟨s2, hs2 | hs2, hrest⟩)
      · exact .inl (.inl hx)
      · subst hs2
        exact .inl (.inr hrest)
      · exact .inr ⟨s2, hs2, hrest⟩

def cfg_c4 : MergeConfiguration :=
  { merge_method := "linear",
    models := some [{ model := "M1" }],
    model_parameters := some [("M2", [("w", .num 1)])] }

/-- C4 counterexample: a models-mode configuration (accepted by
`validate`: `models` non-empty, `slices` absent) makes `referenced_models`
raise `TypeError` — `for s in self.slices` iterates `None` — instead of
returning a list of model identities. -/
theorem c4_models_mode_counterexample :
    cfg_c4.validate = .ok () ∧
    cfg_c4.referenced_models = .error (.typeError "NoneType object is not iterable") :=
  ⟨rfl, rfl⟩

/-- C4 (amended): for every configuration accepted by `validate` whose
`slices` field is present (a list), `referenced_models` returns without
raising a duplicate-free list of model identities obtained by parsing the
keys of `model_parameters` and the `model` fields of slice sources;
models-mode configurations with `slices = None` instead raise `TypeError`. -/
theorem c4_referenced_models_slices_mode (c : MergeConfiguration)
    (sl : List OutputSliceDefinition)
    (_hval : c.validate = .ok ()) (hsl : c.slices = some sl) :
    ∃ ms : List ModelReference, c.referenced_models = .ok ms ∧ ms.Nodup ∧
      ∀ m : ModelReference, m ∈ ms ↔
        ((pyTruthy c.model_parameters = true ∧
          ∃ kv ∈ c.model_parameters.getD [], ModelReference.parse kv.1 = m) ∨
         (∃ s ∈ sl, ∃ src ∈ s.sources, ModelReference.parse src.model = m)) := by
  unfold MergeConfiguration.referenced_models
  rw [hsl]
  dsimp only
  cases hmp : pyTruthy c.model_parameters with
  | true =>
    rw [if_pos rfl]
    refine ⟨_, rfl, foldl_sources_nodup sl _
      (foldl_insertModel_nodup (fun kv : String × ParamDict => ModelReference.parse kv.1)
        _ _ List.nodup_nil),
      fun m => ?_⟩
    rw [mem_foldl_sources, mem_foldl_insertModel]
    simp
  | false =>
    rw [if_neg (by simp)]
    refine ⟨_, rfl, foldl_sources_nodup sl [] List.nodup_nil, fun m => ?_⟩
    rw [mem_foldl_sources]
    simp [hmp]

def cfg_c4w : MergeConfiguration :=
  { merge_method := "linear",
    slices := some [{ sources := [{ model := "A", layer_range := (0, 8) },
                                  { model := "B", layer_range := (0, 8) }] }],
    model_parameters := some [("A", [("w", .num 1)])] }

/-- Witness for C4 at a slices-mode configuration referencing models `A`
(also a `model_parameters` key) and `B`. -/
theorem c4_referenced_models_slices_mode_witness :
    ∃ ms : List ModelReference, cfg_c4w.referenced_models = .ok ms ∧ ms.Nodup ∧
      ∀ m : ModelReference, m ∈ ms ↔
        ((pyTruthy cfg_c4w.model_parameters = true ∧
          ∃ kv ∈ cfg_c4w.model_parameters.getD [], ModelReference.parse kv.1 = m) ∨
         (∃ s ∈ [({ sources := [{ model := "A", layer_range := (0, 8) },
                                { model := "B", layer_range := (0, 8) }] } :
              OutputSliceDefinition)],
            ∃ src ∈ s.sources, ModelReference.parse src.model = m)) :=
  c4_referenced_models_slices_mode cfg_c4w
    [{ sources := [{ model := "A", layer_range := (0, 8) },
                   { model := "B", layer_range := (0, 8) }] }] rfl rfl

end MergekitConfig
